import Mathlib

/-!
Verification of the hunger-games simulation engine (`hunger_games.py`).

The Python source is shallowly embedded below: tributes are records over
`Int` vitals (all Python arithmetic on them is integral), stochastic calls
(`random.random`, `random.randint`, `random.sample`, `random.choice`) are
parameterised by explicit draw values, and fallible code paths
(`AttributeError` from a missing class attribute, `raise ValueError`)
return `Except`.
-/

namespace HungerGames

/-- Embeds class `Tribute`: identity, static rank, trait tags, vitals and
the bounded 2-D position.  The `enemies`/`allies` fields of the source are
carried but never consulted by any rule, so they are omitted here. -/
structure Tribute where
  name : String
  district : Int
  rank : Int
  trait : List String
  hunger : Int
  thirst : Int
  health : Int
  coords : Int × Int
deriving DecidableEq

instance : Inhabited Tribute := ⟨⟨"", 0, 0, [], 12, 12, 12, (0, 0)⟩⟩

namespace Tribute

/-- `Tribute.set_health`. -/
def set_health (t : Tribute) (new_health : Int) : Tribute :=
  { t with health := new_health }

/-- `Tribute.adjust_health`. -/
def adjust_health (t : Tribute) (d : Int) : Tribute :=
  set_health t (t.health + d)

/-- `Tribute.is_dead` property: `health <= 0`. -/
def is_dead (t : Tribute) : Bool :=
  t.health ≤ 0

/-- `Tribute.is_alive` property: `not is_dead`. -/
def is_alive (t : Tribute) : Bool :=
  ! t.is_dead

/-- `Tribute.kill`: force health to 0. -/
def kill (t : Tribute) : Tribute :=
  set_health t 0

/-- `Tribute.fighting_score` property, translated branch by branch. -/
def fighting_score (t : Tribute) : Int :=
  if "Career" ∈ t.trait then t.rank + t.hunger + t.thirst + t.health + 2
  else if "Strong" ∈ t.trait then t.rank + t.hunger + t.thirst + t.health + 1
  else if "Ranged Fighter" ∈ t.trait then t.rank + t.hunger + t.thirst + t.health + 1
  else t.rank + t.hunger + t.thirst + t.health

/-- `self.hunger -= 1; self.thirst -= 1` at the top of
`Tribute.progress_time`. -/
def decayVitals (t : Tribute) : Tribute :=
  { t with hunger := t.hunger - 1, thirst := t.thirst - 1 }

/-- `if self.hunger <= 0: self.adjust_health(self.hunger - 1)`. -/
def hungerPenalty (t : Tribute) : Tribute :=
  if t.hunger ≤ 0 then adjust_health t (t.hunger - 1) else t

/-- `if self.thirst < 0: self.kill()`. -/
def thirstDeath (t : Tribute) : Tribute :=
  if t.thirst < 0 then kill t else t

/-- The movement block of `Tribute.progress_time`: with the `random.random()
< 0.5` roll `move`, each coordinate is shifted by its own `random.randint`
draw (`r0`, `r1`); the boundary-dependent draw bounds are captured by
`stepOK` below. -/
def moveStep (t : Tribute) (move : Bool) (r0 r1 : Int) : Tribute :=
  if move then { t with coords := (t.coords.1 + r0, t.coords.2 + r1) } else t

/-- The interval the source requests from `random.randint` for a coordinate
at value `c`: `randint(-1, 0)` at `c = 2`, `randint(0, 1)` at `c = -2`, and
`randint(-1, 1)` otherwise. -/
def stepOK (c r : Int) : Prop :=
  if c = 2 then -1 ≤ r ∧ r ≤ 0
  else if c = -2 then 0 ≤ r ∧ r ≤ 1
  else -1 ≤ r ∧ r ≤ 1

/-- `Tribute.progress_time`, parameterised by the random draws of the
movement block.  Returns the updated tribute and the `bool` the method
returns. -/
def progress_time (t : Tribute) (move : Bool) (r0 r1 : Int) : Tribute × Bool :=
  if t.is_dead then (t, false)
  else
    let t3 := moveStep (thirstDeath (hungerPenalty (decayVitals t))) move r0 r1
    (t3, t3.is_alive)

end Tribute

/-- The exceptions the engine can raise while advancing a day:
`attributeError` models Python's `AttributeError` on reading a class
attribute that does not exist, `valueError` models the explicit
`raise ValueError` in `EventFight.execute`. -/
inductive PyErr where
  | attributeError
  | valueError
deriving DecidableEq

/-- The four event classes registered in `GameMaker.__init__`:
`EventFight`, `EventMutts`, `EventFood`, `EventDrink`. -/
inductive EventKind where
  | fight
  | mutts
  | food
  | drink
deriving DecidableEq

/-- Reading `event.num_participants` on an event class: only `EventMutts`
defines the attribute (value `-1`); on the other three classes the read
fails (`none` models the `AttributeError`). -/
def numParticipantsAttr : EventKind → Option Int
  | .mutts => some (-1)
  | _ => none

/-- `fightOutcome w l k` is the final block of `EventFight.execute` given
the already-decided winner `w` and loser `l`: with the `random.random() <
0.5` roll `k` the winner kills the loser outright, otherwise the loser
escapes with `adjust_health(-1)`.  Returns `(winner, loser)` updated. -/
def fightOutcome (w l : Tribute) (k : Bool) : Tribute × Tribute :=
  if k then (w, l.kill) else (w, l.adjust_health (-1))

/-- `EventFight.execute` after `random.sample` has produced the player pair
`(p0, p1)` (in sampled order).  `adv` is the `random.random() < 0.7` roll
deciding the close fight, `k` the kill roll.  Returns the updated pair in
the same order, or the `ValueError` the source raises in its unreachable
ordering branch. -/
def fight_execute (p0 p1 : Tribute) (adv k : Bool) :
    Except PyErr (Tribute × Tribute) :=
  if p0.fighting_score = p1.fighting_score then
    .ok (p0.adjust_health (-1), p1.adjust_health (-1))
  else
    -- `sorted(players, key=score, reverse=True)` on two elements keeps
    -- `p0` first unless `p1` scores strictly higher (stable sort).
    let strongerIsFirst : Bool := ! decide (p0.fighting_score < p1.fighting_score)
    let s := if strongerIsFirst then p0 else p1
    let w := if strongerIsFirst then p1 else p0
    let difference := s.fighting_score - w.fighting_score
    if 6 ≤ difference then
      let out := fightOutcome s w k
      .ok (if strongerIsFirst then (out.1, out.2) else (out.2, out.1))
    else if 0 < difference ∧ difference < 6 then
      if adv then
        let out := fightOutcome s w k
        .ok (if strongerIsFirst then (out.1, out.2) else (out.2, out.1))
      else
        let out := fightOutcome w s k
        .ok (if strongerIsFirst then (out.2, out.1) else (out.1, out.2))
    else
      .error .valueError

/-- One die roll of `EventMutts.execute` applied to a victim: the four
consecutive `if` statements on `d6`. -/
def mutt_hit (d6 : Int) (t : Tribute) : Tribute :=
  let t1 := if d6 = 1 then t.kill else t
  let t2 := if d6 = 2 ∨ d6 = 3 then t1.adjust_health (-5) else t1
  let t3 := if d6 = 4 ∨ d6 = 5 then t2.adjust_health (-3) else t2
  if d6 = 6 then t3.adjust_health (-1) else t3

/-- `EventMutts.execute` over the roster.  `selected` are the roster
indices handed to the event, `zone` the two `randint(-2, 2)` draws, and
`d6s n` the die roll for the `n`-th victim.  Victims are the selected
tributes whose coords equal the zone, processed in order. -/
def mutts_execute (roster : List Tribute) (selected : List Nat)
    (zone : Int × Int) (d6s : Nat → Int) : List Tribute :=
  let victims := selected.filter (fun i => (roster.getD i default).coords = zone)
  victims.enum.foldl
    (fun r p => r.set p.2 (mutt_hit (d6s p.1) (r.getD p.2 default))) roster

/-- Models `random.sample(pool, k)`: `picks` are positions into `pool`
chosen by the generator; the first `k` picked elements are returned. -/
def sample_select (pool : List Nat) (picks : List Nat) (k : Nat) : List Nat :=
  (picks.map (fun p => pool.getD p 0)).take k

/-- The randomness one iteration of the dispatch loop may consume: the
`random.choice(self.events)` draw plus every draw the chosen event class
could use internally. -/
structure LoopDraw where
  kind : EventKind
  zone : Int × Int
  d6s : Nat → Int
  picks : List Nat
  adv : Bool
  killRoll : Bool

/-- `event(selected_tributes).execute()` dispatched on the drawn class,
acting on roster indices `selected`. -/
def event_execute (d : LoopDraw) (roster : List Tribute) (selected : List Nat) :
    Except PyErr (List Tribute) :=
  match d.kind with
  | .fight =>
    -- `EventFight.execute` starts with `random.sample(self.tributes, k=2)`.
    let ps := sample_select selected d.picks 2
    let i := ps.getD 0 0
    let j := ps.getD 1 0
    match fight_execute (roster.getD i default) (roster.getD j default) d.adv d.killRoll with
    | .error e => .error e
    | .ok q => .ok ((roster.set i q.1).set j q.2)
  | .mutts => .ok (mutts_execute roster selected d.zone d.d6s)
  | .food =>
    let ps := sample_select selected d.picks 1
    let i := ps.getD 0 0
    let t := roster.getD i default
    .ok (roster.set i { t with hunger := t.hunger + 2 })
  | .drink =>
    let ps := sample_select selected d.picks 1
    let i := ps.getD 0 0
    let t := roster.getD i default
    .ok (roster.set i { t with thirst := t.thirst + 2 })

/-- `for tribute in selected_tributes: remaining_tributes.remove(tribute)`,
with `list.remove` (first occurrence) as `List.erase`. -/
def remove_all (pool : List Nat) (selected : List Nat) : List Nat :=
  selected.foldl (fun acc i => acc.erase i) pool

/-- The `while len(remaining_tributes) > 0` event-dispatch loop of
`GameMaker.progress_time`.  Tributes live in `roster` and the pool holds
roster indices (modelling Python's object identity).  One `LoopDraw` is
consumed per iteration; `none` means the modelled draw list ran out while
the loop still wanted another iteration.  On success it returns the final
roster together with the log of each resolved event's selected
participants. -/
def dispatch_loop (roster : List Tribute) (pool : List Nat) (draws : List LoopDraw) :
    Option (Except PyErr (List Tribute × List (List Nat))) :=
  if pool.isEmpty then some (.ok (roster, []))
  else
    match draws with
    | [] => none
    | d :: rest =>
      match numParticipantsAttr d.kind with
      | none => some (.error .attributeError)
      | some np =>
        if (pool.length : Int) < np then
          -- `continue`: retry with a fresh event draw, pool untouched
          dispatch_loop roster pool rest
        else
          let selected := if np = -1 then pool else sample_select pool d.picks np.toNat
          match event_execute d roster selected with
          | .error e => some (.error e)
          | .ok roster2 =>
            match dispatch_loop roster2 (remove_all pool selected) rest with
            | none => none
            | some (.error e) => some (.error e)
            | some (.ok (rf, log)) => some (.ok (rf, selected :: log))

/-- The orchestrator state: the fixed roster, the day counter and the
accumulated death timeline (roster index, day of death). -/
structure GameMaker where
  tributes : List Tribute
  day : Nat
  dead_tributes : List (Nat × Nat)
deriving DecidableEq

/-- `GameMaker.living_tributes`, as the list of living roster indices. -/
def living_idx (roster : List Tribute) : List Nat :=
  (List.range roster.length).filter (fun i => ! (roster.getD i default).is_dead)

/-- `for tribute in self.tributes: tribute.progress_time()`, with per-
tribute movement draws `dr i`. -/
def decay_all (roster : List Tribute) (dr : Nat → Bool × Int × Int) : List Tribute :=
  roster.mapIdx (fun i t => (t.progress_time (dr i).1 (dr i).2.1 (dr i).2.2).1)

/-- All randomness one call of `GameMaker.progress_time` may consume. -/
structure DayRandom where
  decay : Nat → Bool × Int × Int
  events : List LoopDraw

/-- What one day returns: the new orchestrator state, the `bool` result of
`GameMaker.progress_time` (`continuing`), and the winner announced by the
game-over branch (`living_tributes[0]`), if any. -/
structure DayResult where
  gm : GameMaker
  continuing : Bool
  winner : Option Nat
deriving DecidableEq

/-- `GameMaker.progress_time`: advance the day counter, decay every
tribute, run the dispatch loop over the post-decay living pool, then test
`len(self.living_tributes) == 1` for game over; otherwise append the
tributes that were alive before decay and are dead now to the timeline and
continue. -/
def gm_progress_time (gm : GameMaker) (dr : DayRandom) :
    Option (Except PyErr DayResult) :=
  let day2 := gm.day + 1
  let currently_alive := living_idx gm.tributes
  let roster1 := decay_all gm.tributes dr.decay
  match dispatch_loop roster1 (living_idx roster1) dr.events with
  | none => none
  | some (.error e) => some (.error e)
  | some (.ok (roster2, _log)) =>
    if (living_idx roster2).length = 1 then
      some (.ok ⟨⟨roster2, day2, gm.dead_tributes⟩, false, (living_idx roster2).head?⟩)
    else
      let died_today := currently_alive.filter (fun i => (roster2.getD i default).is_dead)
      some (.ok ⟨⟨roster2, day2,
        gm.dead_tributes ++ died_today.map (fun i => (i, day2))⟩, true, none⟩)

/-- Modelled from the spec (§3, Derived): the trait bonus as the first
matching rule in priority order Career (+2), Strong (+1), Ranged Fighter
(+1), otherwise 0.  Written from the spec's words, for comparison with the
source's `fighting_score`. -/
def trait_bonus_spec (traits : List String) : Int :=
  if "Career" ∈ traits then 2
  else if "Strong" ∈ traits then 1
  else if "Ranged Fighter" ∈ traits then 1
  else 0

/-- Modelled from the spec (§3, Derived): fighting score = rank + hunger +
thirst + health + trait bonus. -/
def fighting_score_spec (t : Tribute) : Int :=
  t.rank + t.hunger + t.thirst + t.health + trait_bonus_spec t.trait

/-- The atomic mutations the source ever applies to a single tribute: its
own decay, and the per-tribute effects of the four event classes
(`EventFight` draw hit, kill, escape hit; `EventMutts` die-roll outcomes;
`EventFood`/`EventDrink` gauge gains). -/
inductive TributeOp where
  | decay (m : Bool) (r0 r1 : Int)
  | killOutright
  | fightDrawHit
  | fightEscapeHit
  | muttSevere
  | muttModerate
  | muttGraze
  | foodGain
  | drinkGain

/-- Apply one atomic mutation, each via the corresponding source
operation. -/
def apply_op (t : Tribute) : TributeOp → Tribute
  | .decay m r0 r1 => (t.progress_time m r0 r1).1
  | .killOutright => t.kill
  | .fightDrawHit => t.adjust_health (-1)
  | .fightEscapeHit => t.adjust_health (-1)
  | .muttSevere => t.adjust_health (-5)
  | .muttModerate => t.adjust_health (-3)
  | .muttGraze => t.adjust_health (-1)
  | .foodGain => { t with hunger := t.hunger + 2 }
  | .drinkGain => { t with thirst := t.thirst + 2 }

/-- Apply a sequence of atomic mutations. -/
def apply_ops (t : Tribute) (ops : List TributeOp) : Tribute :=
  ops.foldl apply_op t

/-! Concrete fixtures used by witnesses and counterexamples. -/

/-- A healthy tribute with default vitals and no traits. -/
def tPlain : Tribute := ⟨"plain", 12, 1, [], 12, 12, 12, (0, 0)⟩

/-- A tribute one decay away from dying of thirst. -/
def tThirsty : Tribute := ⟨"thirsty", 12, 2, [], 12, 0, 12, (0, 0)⟩

/-- An already-dead tribute. -/
def tDead : Tribute := ⟨"dead", 12, 3, [], 5, 5, 0, (0, 0)⟩

/-- A high-rank tribute: fighting score 20 + 36 = 56. -/
def tStrongR : Tribute := ⟨"strong", 12, 20, [], 12, 12, 12, (0, 0)⟩

/-- A low-rank tribute: fighting score 1 + 36 = 37 (gap to `tStrongR` is
19 ≥ 6). -/
def tWeakR : Tribute := ⟨"weak", 12, 1, [], 12, 12, 12, (0, 0)⟩

/-- Same fighting score as `tPlain` but a different identity. -/
def tEqualB : Tribute := ⟨"equal", 11, 1, [], 12, 12, 12, (0, 0)⟩

/-- Decay randomness: never move. -/
def drNone : Nat → Bool × Int × Int := fun _ => (false, 0, 0)

/-- An `EventFight` draw from `random.choice(self.events)`. -/
def dFightDraw : LoopDraw := ⟨.fight, (0, 0), fun _ => 1, [], false, false⟩

/-- An `EventMutts` draw whose zone `(2, 2)` is away from the fixtures'
coords, so no victim is hit. -/
def dMuttsDraw : LoopDraw := ⟨.mutts, (2, 2), fun _ => 1, [], false, false⟩

/-- Two tributes that both die of thirst on the same day: after that day
zero tributes live. -/
def gmExtinct : GameMaker := ⟨[tThirsty, ⟨"thirsty2", 12, 4, [], 12, 0, 12, (0, 0)⟩], 0, []⟩

/-- A healthy tribute plus one that dies of thirst on the day: the day
terminates with one survivor. -/
def gmFinalDay : GameMaker := ⟨[tPlain, tThirsty], 0, []⟩

/-- A day with no event randomness (enough when the pool empties by
decay alone). -/
def drEmptyEvents : DayRandom := ⟨drNone, []⟩

/-- A day whose single event draw is the harmless mutts event. -/
def drMuttsOnly : DayRandom := ⟨drNone, [dMuttsDraw]⟩

/-- A day whose first event draw is a fight. -/
def drFightFirst : DayRandom := ⟨drNone, [dFightDraw]⟩

/-- `tPlain` after one decay without movement. -/
def tPlainD : Tribute := ⟨"plain", 12, 1, [], 11, 11, 12, (0, 0)⟩

/-- `tThirsty` after one decay: dead of thirst. -/
def tThirstyD : Tribute := ⟨"thirsty", 12, 2, [], 11, -1, 0, (0, 0)⟩

/-- The second tribute of `gmExtinct` after one decay: dead of thirst. -/
def tThirsty2D : Tribute := ⟨"thirsty2", 12, 4, [], 11, -1, 0, (0, 0)⟩

/-- The day result produced from `gmExtinct` with `drEmptyEvents`. -/
def resExtinct : DayResult :=
  ⟨⟨[tThirstyD, tThirsty2D], 1, [(0, 1), (1, 1)]⟩, true, none⟩

/-- The day result produced from `gmFinalDay` with `drMuttsOnly`. -/
def resFinalDay : DayResult := ⟨⟨[tPlainD, tThirstyD], 1, []⟩, false, some 0⟩

/-! Helper lemmas. -/

/-- The vitals pipeline of `Tribute.progress_time` never touches the
position. -/
theorem decay_chain_coords (t : Tribute) :
    (t.decayVitals.hungerPenalty.thirstDeath).coords = t.coords := by
  simp only [Tribute.decayVitals, Tribute.hungerPenalty, Tribute.thirstDeath,
    Tribute.adjust_health, Tribute.set_health, Tribute.kill]
  split_ifs <;> rfl

/-- Unpacking the `randint` interval of a movement draw. -/
theorem stepOK_bounds (c r : Int) (h : Tribute.stepOK c r) :
    -1 ≤ r ∧ r ≤ 1 ∧ (c = 2 → r ≤ 0) ∧ (c = -2 → 0 ≤ r) := by
  unfold Tribute.stepOK at h
  split_ifs at h <;> omega

/-- Where the position ends up after one decay call. -/
theorem progress_time_coords (t : Tribute) (m : Bool) (r0 r1 : Int) :
    ((t.progress_time m r0 r1).1).coords =
      if t.is_dead then t.coords
      else if m then (t.coords.1 + r0, t.coords.2 + r1) else t.coords := by
  unfold Tribute.progress_time Tribute.moveStep
  split_ifs <;> simp [decay_chain_coords]

/-! Claim theorems. -/

/-- Claim C5: the decay transition is a no-op returning `false` on a dead
tribute; on a living one it decrements hunger and thirst by exactly 1,
applies the extra health change `new hunger - 1` exactly when the new
hunger is `≤ 0`, forces health to 0 (death) exactly when the new thirst is
`< 0`, and returns whether the tribute is still alive. -/
theorem c5_tribute_decay (t : Tribute) (m : Bool) (r0 r1 : Int) :
    (t.is_dead = true → t.progress_time m r0 r1 = (t, false))
    ∧ (t.is_dead = false →
        ((t.progress_time m r0 r1).1.hunger = t.hunger - 1
        ∧ (t.progress_time m r0 r1).1.thirst = t.thirst - 1
        ∧ (t.thirst - 1 < 0 →
            (t.progress_time m r0 r1).1.health = 0
            ∧ (t.progress_time m r0 r1).1.is_dead = true)
        ∧ (0 ≤ t.thirst - 1 →
            (t.progress_time m r0 r1).1.health =
              if t.hunger - 1 ≤ 0 then t.health + ((t.hunger - 1) - 1)
              else t.health)
        ∧ (t.progress_time m r0 r1).2 = (t.progress_time m r0 r1).1.is_alive)) := by
  constructor
  · intro h
    simp [Tribute.progress_time, h]
  · intro h
    have hh : ¬ t.health ≤ 0 := by simpa [Tribute.is_dead] using h
    simp only [Tribute.progress_time, Tribute.moveStep, Tribute.thirstDeath,
      Tribute.hungerPenalty, Tribute.decayVitals, Tribute.kill,
      Tribute.adjust_health, Tribute.set_health, Tribute.is_dead,
      Tribute.is_alive]
    split_ifs <;> simp_all <;> omega

/-- Witness for C5 at concrete inputs: a dead tribute is untouched, and a
tribute with thirst 0 dies of thirst with the stated vitals. -/
theorem c5_tribute_decay_witness :
    (tDead.progress_time true 1 0 = (tDead, false))
    ∧ ((tThirsty.progress_time false 0 0).1.hunger = tThirsty.hunger - 1
        ∧ (tThirsty.progress_time false 0 0).1.health = 0
        ∧ (tThirsty.progress_time false 0 0).1.is_dead = true) :=
  ⟨(c5_tribute_decay tDead true 1 0).1 rfl,
    ((c5_tribute_decay tThirsty false 0 0).2 rfl).1,
    (((c5_tribute_decay tThirsty false 0 0).2 rfl).2.2.1 (by decide)).1,
    (((c5_tribute_decay tThirsty false 0 0).2 rfl).2.2.1 (by decide)).2⟩

/-- Claim C7: the source's `fighting_score` agrees with the spec formula
rank + hunger + thirst + health + first-matching trait bonus (Career +2,
then Strong +1, then Ranged Fighter +1, else 0); the bonus never stacks. -/
theorem c7_fighting_score_spec (t : Tribute) :
    t.fighting_score = fighting_score_spec t := by
  simp only [Tribute.fighting_score, fighting_score_spec, trait_bonus_spec]
  split_ifs <;> ring

/-- A single atomic mutation never revives a dead tribute. -/
theorem apply_op_dead (t : Tribute) (op : TributeOp) (h : t.is_dead = true) :
    (apply_op t op).is_dead = true := by
  have hh : t.health ≤ 0 := by simpa [Tribute.is_dead] using h
  cases op with
  | decay m r0 r1 =>
    simp [apply_op, Tribute.progress_time, h]
  | foodGain => simpa [apply_op, Tribute.is_dead] using hh
  | drinkGain => simpa [apply_op, Tribute.is_dead] using hh
  | _ =>
    simp only [apply_op, Tribute.kill, Tribute.adjust_health, Tribute.set_health,
      Tribute.is_dead, decide_eq_true_eq]
    omega

/-- Claim C8: across any sequence of decay calls and event effects,
`is_dead` is monotonic (once true it stays true), and `is_dead` holds
exactly when health is `≤ 0`. -/
theorem c8_death_monotonic :
    (∀ (t : Tribute) (ops : List TributeOp),
        t.is_dead = true → (apply_ops t ops).is_dead = true)
    ∧ (∀ t : Tribute, t.is_dead = true ↔ t.health ≤ 0) := by
  constructor
  · intro t ops
    induction ops generalizing t with
    | nil => intro h; simpa [apply_ops] using h
    | cons op rest ih =>
      intro h
      have step := apply_op_dead t op h
      simpa [apply_ops] using ih (apply_op t op) step
  · intro t
    simp [Tribute.is_dead]

/-- Witness for C8: a dead tribute stays dead through a concrete op
sequence (decay, a fight hit, foraging), and the `is_dead`/health
equivalence at a concrete tribute. -/
theorem c8_death_monotonic_witness :
    (apply_ops tDead
        [TributeOp.decay true 1 0, TributeOp.fightDrawHit,
          TributeOp.foodGain, TributeOp.drinkGain]).is_dead = true
    ∧ (tThirsty.is_dead = true ↔ tThirsty.health ≤ 0) :=
  ⟨c8_death_monotonic.1 tDead _ (by decide), c8_death_monotonic.2 tThirsty⟩

/-- Claim C10: starting from an in-bounds position, each coordinate stays
in `[-2, 2]` after a decay call; without the movement roll the position is
unchanged; and at an axis boundary the tribute can only step inward or
stay (no wrap-around). -/
theorem c10_position_bounds (t : Tribute) (m : Bool) (r0 r1 : Int)
    (hx1 : -2 ≤ t.coords.1) (hx2 : t.coords.1 ≤ 2)
    (hy1 : -2 ≤ t.coords.2) (hy2 : t.coords.2 ≤ 2)
    (h0 : Tribute.stepOK t.coords.1 r0) (h1 : Tribute.stepOK t.coords.2 r1) :
    (-2 ≤ ((t.progress_time m r0 r1).1).coords.1
      ∧ ((t.progress_time m r0 r1).1).coords.1 ≤ 2)
    ∧ (-2 ≤ ((t.progress_time m r0 r1).1).coords.2
      ∧ ((t.progress_time m r0 r1).1).coords.2 ≤ 2)
    ∧ (m = false → ((t.progress_time m r0 r1).1).coords = t.coords)
    ∧ (t.coords.1 = 2 → 1 ≤ ((t.progress_time m r0 r1).1).coords.1)
    ∧ (t.coords.1 = -2 → ((t.progress_time m r0 r1).1).coords.1 ≤ -1)
    ∧ (t.coords.2 = 2 → 1 ≤ ((t.progress_time m r0 r1).1).coords.2)
    ∧ (t.coords.2 = -2 → ((t.progress_time m r0 r1).1).coords.2 ≤ -1) := by
  obtain ⟨ha0, hb0, hc0, hd0⟩ := stepOK_bounds _ _ h0
  obtain ⟨ha1, hb1, hc1, hd1⟩ := stepOK_bounds _ _ h1
  rw [progress_time_coords] at *
  cases m
  all_goals split_ifs <;> simp_all <;> omega

/-- Witness for C10 at a concrete boundary position: a moving tribute at
`(2, -2)` stays in bounds and steps inward or stays. -/
theorem c10_position_bounds_witness :
    (-2 ≤ ((Tribute.progress_time ⟨"edge", 3, 1, [], 12, 12, 12, (2, -2)⟩ true (-1) 1).1).coords.1
      ∧ ((Tribute.progress_time ⟨"edge", 3, 1, [], 12, 12, 12, (2, -2)⟩ true (-1) 1).1).coords.1 ≤ 2)
    ∧ (-2 ≤ ((Tribute.progress_time ⟨"edge", 3, 1, [], 12, 12, 12, (2, -2)⟩ true (-1) 1).1).coords.2
      ∧ ((Tribute.progress_time ⟨"edge", 3, 1, [], 12, 12, 12, (2, -2)⟩ true (-1) 1).1).coords.2 ≤ 2)
    ∧ (true = false →
        ((Tribute.progress_time ⟨"edge", 3, 1, [], 12, 12, 12, (2, -2)⟩ true (-1) 1).1).coords = (2, -2))
    ∧ ((2 : Int) = 2 →
        1 ≤ ((Tribute.progress_time ⟨"edge", 3, 1, [], 12, 12, 12, (2, -2)⟩ true (-1) 1).1).coords.1)
    ∧ ((2 : Int) = -2 →
        ((Tribute.progress_time ⟨"edge", 3, 1, [], 12, 12, 12, (2, -2)⟩ true (-1) 1).1).coords.1 ≤ -1)
    ∧ ((-2 : Int) = 2 →
        1 ≤ ((Tribute.progress_time ⟨"edge", 3, 1, [], 12, 12, 12, (2, -2)⟩ true (-1) 1).1).coords.2)
    ∧ ((-2 : Int) = -2 →
        ((Tribute.progress_time ⟨"edge", 3, 1, [], 12, 12, 12, (2, -2)⟩ true (-1) 1).1).coords.2 ≤ -1) :=
  c10_position_bounds ⟨"edge", 3, 1, [], 12, 12, 12, (2, -2)⟩ true (-1) 1
    (by decide) (by decide) (by decide) (by decide)
    (by simp [Tribute.stepOK]) (by simp [Tribute.stepOK])

/-- Claim C6: with exactly equal fighting scores a fight costs each
participant exactly 1 health and kills neither; with a score gap of at
least 6 the higher-scoring participant wins in every random outcome, and
the loser is either killed outright (health forced to 0) or escapes with
exactly -1 health, as the kill roll decides. -/
theorem c6_fight_resolution (p0 p1 : Tribute) (adv k : Bool) :
    (p0.fighting_score = p1.fighting_score →
      fight_execute p0 p1 adv k =
        .ok (p0.adjust_health (-1), p1.adjust_health (-1)))
    ∧ (p1.fighting_score + 6 ≤ p0.fighting_score →
      fight_execute p0 p1 adv k =
        .ok (p0, if k then p1.kill else p1.adjust_health (-1)))
    ∧ (p0.fighting_score + 6 ≤ p1.fighting_score →
      fight_execute p0 p1 adv k =
        .ok (if k then p0.kill else p0.adjust_health (-1), p1)) := by
  refine ⟨?_, ?_, ?_⟩
  · intro he
    simp [fight_execute, he]
  · intro hge
    have hne : ¬ p0.fighting_score = p1.fighting_score := by omega
    have hlt : ¬ p0.fighting_score < p1.fighting_score := by omega
    simp [fight_execute, hne, hlt, fightOutcome]
    rw [if_pos (by omega)]
    cases k <;> simp
  · intro hge
    have hne : ¬ p0.fighting_score = p1.fighting_score := by omega
    have hlt : p0.fighting_score < p1.fighting_score := by omega
    simp [fight_execute, hne, hlt, fightOutcome]
    rw [if_pos (by omega)]
    cases k <;> simp

/-- Witness for C6 at concrete tributes: an equal-score draw, a gap-19
fight won by the stronger first participant (kill roll set), and the
mirror case with the stronger participant second (escape roll). -/
theorem c6_fight_resolution_witness :
    fight_execute tPlain tEqualB true true =
      .ok (tPlain.adjust_health (-1), tEqualB.adjust_health (-1))
    ∧ fight_execute tStrongR tWeakR false true = .ok (tStrongR, tWeakR.kill)
    ∧ fight_execute tWeakR tStrongR true false =
      .ok (tWeakR.adjust_health (-1), tStrongR) :=
  ⟨(c6_fight_resolution tPlain tEqualB true true).1 (by decide),
    by
      have h := (c6_fight_resolution tStrongR tWeakR false true).2.1 (by decide)
      simpa using h,
    by
      have h := (c6_fight_resolution tWeakR tStrongR true false).2.2 (by decide)
      simpa using h⟩

/-- Removing every element of a duplicate-free pool from itself empties
it. -/
theorem remove_all_self : ∀ (pool : List Nat), pool.Nodup → remove_all pool pool = []
  | [], _ => rfl
  | a :: t, h => by
    have ht : t.Nodup := (List.nodup_cons.mp h).2
    show List.foldl (fun acc i => acc.erase i) (a :: t) (a :: t) = []
    rw [List.foldl_cons]
    simp only [List.erase_cons_head]
    exact remove_all_self t ht

/-- The dispatch loop on an empty pool resolves nothing. -/
theorem dispatch_loop_empty (roster : List Tribute) (draws : List LoopDraw) :
    dispatch_loop roster [] draws = some (.ok (roster, [])) := by
  unfold dispatch_loop
  rfl

/-- With a non-empty pool and no modelled draws left, the loop is stuck. -/
theorem dispatch_loop_no_draws (roster : List Tribute) (a : Nat) (t : List Nat) :
    dispatch_loop roster (a :: t) [] = none := by
  unfold dispatch_loop
  rfl

/-- Drawing any event class other than `EventMutts` on a non-empty pool
raises `AttributeError` at the `event.num_participants` check. -/
theorem dispatch_loop_attr_error (roster : List Tribute) (a : Nat) (t : List Nat)
    (d : LoopDraw) (rest : List LoopDraw) (hk : d.kind ≠ .mutts) :
    dispatch_loop roster (a :: t) (d :: rest) = some (.error .attributeError) := by
  have hnp : numParticipantsAttr d.kind = none := by
    cases hdk : d.kind <;> simp_all [numParticipantsAttr]
  unfold dispatch_loop
  simp [hnp]

/-- Drawing `EventMutts` on a non-empty, duplicate-free pool resolves the
whole pool in one iteration and ends the loop. -/
theorem dispatch_loop_mutts (roster : List Tribute) (a : Nat) (t : List Nat)
    (d : LoopDraw) (rest : List LoopDraw) (hnd : (a :: t).Nodup)
    (hk : d.kind = .mutts) :
    dispatch_loop roster (a :: t) (d :: rest) =
      some (.ok (mutts_execute roster (a :: t) d.zone d.d6s, [a :: t])) := by
  have hnp : numParticipantsAttr d.kind = some (-1) := by
    simp [hk, numParticipantsAttr]
  have hlen : ¬ (((a :: t).length : Int) < -1) := by omega
  have hex : event_execute d roster (a :: t) =
      .ok (mutts_execute roster (a :: t) d.zone d.d6s) := by
    rw [event_execute, hk]
  unfold dispatch_loop
  rw [if_neg (by simp)]
  simp only [hnp, hlen, if_false]
  simp [hex, remove_all_self _ hnd, dispatch_loop_empty]

/-- Claim C2, evaluated at the failing input: the spec requires a drawn
variant with a fixed required count larger than the pool (here Fight,
requiring 2, on a pool of 1) to be skipped without error, but the loop
raises `AttributeError` instead, because `EventFight` defines no
`num_participants` attribute. -/
theorem c2_skip_small_pool_raises_instead :
    dispatch_loop [tPlain] [0] [dFightDraw] = some (.error .attributeError) := rfl

/-- Claim C3: only `EventMutts` defines `num_participants`; every draw of
another event class on a non-empty pool makes the participant-count check
raise `AttributeError` (also surfacing from the day-advance operation),
and an `EventMutts` draw is the only one the loop can resolve. -/
theorem c3_only_mutts_resolvable :
    (∀ k : EventKind, (numParticipantsAttr k).isSome = true ↔ k = EventKind.mutts)
    ∧ (∀ (roster : List Tribute) (pool : List Nat) (d : LoopDraw)
        (rest : List LoopDraw), pool ≠ [] → d.kind ≠ EventKind.mutts →
        dispatch_loop roster pool (d :: rest) = some (.error PyErr.attributeError))
    ∧ (∀ (gm : GameMaker) (dr : DayRandom) (d : LoopDraw) (rest : List LoopDraw),
        dr.events = d :: rest → d.kind ≠ EventKind.mutts →
        living_idx (decay_all gm.tributes dr.decay) ≠ [] →
        gm_progress_time gm dr = some (.error PyErr.attributeError))
    ∧ (∀ (roster : List Tribute) (pool : List Nat) (d : LoopDraw)
        (rest : List LoopDraw), pool ≠ [] → pool.Nodup → d.kind = EventKind.mutts →
        dispatch_loop roster pool (d :: rest) =
          some (.ok (mutts_execute roster pool d.zone d.d6s, [pool]))) := by
  refine ⟨?_, ?_, ?_, ?_⟩
  · intro k
    cases k <;> simp [numParticipantsAttr]
  · intro roster pool d rest hp hk
    obtain ⟨a, t, rfl⟩ := List.exists_cons_of_ne_nil hp
    exact dispatch_loop_attr_error roster a t d rest hk
  · intro gm dr d rest he hk hne
    obtain ⟨a, t, hat⟩ := List.exists_cons_of_ne_nil hne
    simp only [gm_progress_time]
    rw [he, hat, dispatch_loop_attr_error _ _ _ _ _ hk]
  · intro roster pool d rest hp hnd hk
    obtain ⟨a, t, rfl⟩ := List.exists_cons_of_ne_nil hp
    exact dispatch_loop_mutts roster a t d rest hnd hk

/-- Witness for C3 at concrete inputs: a Fight draw on a pool of one raises
the error, a whole day whose first draw is Fight raises the error, and a
mutts draw resolves the whole pool. -/
theorem c3_only_mutts_resolvable_witness :
    dispatch_loop [tThirsty] [0] [dFightDraw] = some (.error PyErr.attributeError)
    ∧ gm_progress_time ⟨[tPlain], 0, []⟩ drFightFirst = some (.error PyErr.attributeError)
    ∧ dispatch_loop [tPlain] [0] [dMuttsDraw] =
        some (.ok (mutts_execute [tPlain] [0] dMuttsDraw.zone dMuttsDraw.d6s, [[0]])) :=
  ⟨c3_only_mutts_resolvable.2.1 [tThirsty] [0] dFightDraw [] (by decide) (by decide),
    c3_only_mutts_resolvable.2.2.1 ⟨[tPlain], 0, []⟩ drFightFirst dFightDraw []
      rfl (by decide) (by decide),
    c3_only_mutts_resolvable.2.2.2 [tPlain] [0] dMuttsDraw [] (by decide)
      (by decide) (by decide)⟩

/-- Claim C9: in one day's dispatch loop, every resolved event's selected
participants come from the pool, and no tribute is selected by two events
(the logged selections are pairwise disjoint). -/
theorem c9_one_event_per_tribute (roster : List Tribute) (pool : List Nat)
    (draws : List LoopDraw) (rf : List Tribute) (log : List (List Nat))
    (hnd : pool.Nodup)
    (h : dispatch_loop roster pool draws = some (.ok (rf, log))) :
    (List.Pairwise (fun s1 s2 => ∀ i ∈ s1, i ∉ s2) log)
    ∧ (∀ s ∈ log, ∀ i ∈ s, i ∈ pool) := by
  cases pool with
  | nil =>
    rw [dispatch_loop_empty] at h
    simp only [Option.some.injEq, Except.ok.injEq, Prod.mk.injEq] at h
    rcases h with ⟨-, hlog⟩
    subst hlog
    simp
  | cons a t =>
    cases draws with
    | nil =>
      rw [dispatch_loop_no_draws] at h
      simp at h
    | cons d rest =>
      by_cases hk : d.kind = EventKind.mutts
      · rw [dispatch_loop_mutts roster a t d rest hnd hk] at h
        simp only [Option.some.injEq, Except.ok.injEq, Prod.mk.injEq] at h
        rcases h with ⟨-, hlog⟩
        subst hlog
        constructor
        · simp
        · intro s hs i hi
          have hse : s = a :: t := by simpa using hs
          subst hse
          exact hi
      · rw [dispatch_loop_attr_error roster a t d rest hk] at h
        simp at h

/-- Witness for C9: a concrete day pool of one tribute resolved by a mutts
draw; its log is the single full-pool selection. -/
theorem c9_one_event_per_tribute_witness :
    (List.Pairwise (fun s1 s2 => ∀ i ∈ s1, i ∉ s2) [[0]])
    ∧ (∀ s ∈ [[0]], ∀ i ∈ s, i ∈ [0]) :=
  c9_one_event_per_tribute [tPlain] [0] [dMuttsDraw] [tPlain] [[0]]
    (by decide) rfl

/-- Claim C1, evaluated at the failing input: a day on which every tribute
dies (total extinction: zero living after decay and events) does NOT end
the simulation — `GameMaker.progress_time` tests `== 1`, not `≤ 1`, so it
returns `True` and the run continues with no one alive, instead of ending
with no winner as the claim states. -/
theorem c1_extinction_day_continues :
    gm_progress_time gmExtinct drEmptyEvents = some (.ok resExtinct)
    ∧ resExtinct.continuing = true
    ∧ living_idx resExtinct.gm.tributes = [] :=
  ⟨rfl, rfl, rfl⟩

/-- Counterexample to claim C4: a run that terminates on day 1 with one
survivor, on which the other tribute died that same (final) day, yet the
reported death timeline is empty — the dying tribute is never recorded. -/
theorem c4_final_day_death_omitted :
    gm_progress_time gmFinalDay drMuttsOnly = some (.ok resFinalDay)
    ∧ resFinalDay.continuing = false
    ∧ resFinalDay.gm.dead_tributes = []
    ∧ (resFinalDay.gm.tributes.getD 1 default).is_dead = true :=
  ⟨rfl, rfl, rfl, rfl⟩

/-- Claim C4 as amended: on a non-terminating day the orchestrator appends
to the timeline exactly the tributes that were alive before that day's
decay and are dead after its events, paired with the current day number;
on the terminating day nothing is appended, so deaths on the final day are
absent from the reported timeline. -/
theorem c4_timeline_records_prior_days (gm : GameMaker) (dr : DayRandom)
    (res : DayResult) (h : gm_progress_time gm dr = some (.ok res)) :
    (res.continuing = false → res.gm.dead_tributes = gm.dead_tributes)
    ∧ (res.continuing = true →
        res.gm.dead_tributes = gm.dead_tributes ++
          ((living_idx gm.tributes).filter
              (fun i => (res.gm.tributes.getD i default).is_dead)).map
            (fun i => (i, gm.day + 1))) := by
  simp only [gm_progress_time] at h
  split at h
  · simp at h
  · simp at h
  · rename_i roster2 log heq
    split at h
    · rename_i hone
      simp only [Option.some.injEq, Except.ok.injEq] at h
      subst h
      refine ⟨fun _ => rfl, fun hc => ?_⟩
      simp at hc
    · rename_i hone
      simp only [Option.some.injEq, Except.ok.injEq] at h
      subst h
      refine ⟨fun hc => by simp at hc, fun _ => rfl⟩

/-- Witness for the amended C4 on a concrete continuing day: the two
tributes who died on extinction day 1 are appended with day number 1. -/
theorem c4_timeline_records_prior_days_witness :
    (resExtinct.continuing = false →
      resExtinct.gm.dead_tributes = gmExtinct.dead_tributes)
    ∧ (resExtinct.continuing = true →
        resExtinct.gm.dead_tributes = gmExtinct.dead_tributes ++
          ((living_idx gmExtinct.tributes).filter
              (fun i => (resExtinct.gm.tributes.getD i default).is_dead)).map
            (fun i => (i, gmExtinct.day + 1))) :=
  c4_timeline_records_prior_days gmExtinct drEmptyEvents resExtinct rfl

end HungerGames
